import Mathlib

/-!
Verification of the giveaway webhook server (`server.js`) against its
natural-language specification.  The mutable in-memory maps
(`userSessions`, `userConnections`, `activeGiveaways`) are embedded as
association lists in insertion order; the HTTP handlers become pure
functions from a request and a server state to a response, a new state
and the list of messages delivered to live connections.  HMAC-SHA-256
and JSON parsing are environmental: they are passed in as function
parameters, so every theorem quantifies over them.
-/

namespace Server

/-- One entry of `userSessions`: tenant credentials plus the reward and
subscription ids once provisioned (`server.js` lines 195-200, 266, 335). -/
structure UserSession where
  accessToken : String
  refreshToken : String
  displayName : String
  rewardId : Option String
  subscriptionId : Option String
deriving DecidableEq

/-- An entry appended to a giveaway (`server.js` lines 560-567). -/
structure Entry where
  username : String
  user_id : String
  redemption_id : String
  reward_id : String
  reward_cost : Nat
  redeemed_at : String
deriving DecidableEq

/-- One value of `activeGiveaways` (`server.js` lines 269-274). -/
structure Giveaway where
  isActive : Bool
  entries : List Entry
  rewardId : String
deriving DecidableEq

/-- A live SSE connection.  `alive` is the environmental model of the
socket: `connection.write` succeeds exactly when the peer is alive, and a
dead peer stays dead (a failed write in Node means the socket is gone). -/
structure Connection where
  connId : Nat
  alive : Bool
deriving DecidableEq

/-- The three in-memory maps of `server.js` lines 29-31, as association
lists in insertion order (JS `Map` iterates in insertion order). -/
structure ServerState where
  userSessions : List (String × UserSession)
  userConnections : List (String × List Connection)
  activeGiveaways : List (String × Giveaway)
deriving DecidableEq

/-- `Map.set k v` / in-place mutation of the value stored at `k`:
replace the first binding of `k`, or append a fresh binding. -/
def mapSet {β : Type} (k : String) (v : β) : List (String × β) → List (String × β)
  | [] => [(k, v)]
  | (k', v') :: rest => if k' = k then (k, v) :: rest else (k', v') :: mapSet k v rest

/-- The messages the modeled code writes to live connections. -/
inductive BroadcastMsg where
  | giveawayEntry (e : Entry)
  | subscriptionRevoked (reason : String)
  | heartbeat
deriving DecidableEq

/-- `broadcastToUser` (`server.js` lines 458-477): write the message to
every connection of the tenant, collect the connections whose write
failed, and delete them from the registry in the same pass.  Returns the
updated `userConnections` and the list of (connection, message)
deliveries that succeeded. -/
def broadcastToUser (userId : String) (msg : BroadcastMsg)
    (conns : List (String × List Connection)) :
    List (String × List Connection) × List (Connection × BroadcastMsg) :=
  match List.lookup userId conns with
  | none => (conns, [])
  | some cs =>
    if cs.isEmpty then (conns, [])
    else
      (mapSet userId (cs.filter (·.alive)) conns,
       (cs.filter (·.alive)).map (fun c => (c, msg)))

/-- The heartbeat interval of an SSE connection (`server.js` lines
432-441): each tick attempts a write; it is delivered exactly when the
peer is alive, and a failed write clears the interval without delivering
anything. -/
def heartbeatTick (c : Connection) : Option BroadcastMsg :=
  if c.alive then some BroadcastMsg.heartbeat else none

/-- The `event.event` object of a redemption notification, with the
fields `handleEventNotification` reads. -/
structure RedemptionEvent where
  broadcaster_user_id : String
  user_name : String
  user_id : String
  id : String
  reward_id : String
  reward_cost : Nat
  redeemed_at : String
deriving DecidableEq

/-- A parsed `notification` body: `event.subscription.type` plus
`event.event`. -/
structure NotificationEvent where
  subscriptionType : String
  eventData : RedemptionEvent
deriving DecidableEq

/-- The entry object built at `server.js` lines 560-567. -/
def mkEntry (eventData : RedemptionEvent) : Entry :=
  { username := eventData.user_name
    user_id := eventData.user_id
    redemption_id := eventData.id
    reward_id := eventData.reward_id
    reward_cost := eventData.reward_cost
    redeemed_at := eventData.redeemed_at }

/-- `handleEventNotification` (`server.js` lines 539-579).  For a
redemption-add notification: drop unless both a giveaway and a session
exist for the broadcaster; drop if the reward id differs from the
giveaway's reward id; otherwise push an entry and broadcast it.  Any
other subscription type falls through the outer `if` and does nothing. -/
def handleEventNotification (event : NotificationEvent) (st : ServerState) :
    ServerState × List (Connection × BroadcastMsg) :=
  if event.subscriptionType = "channel.channel_points_custom_reward_redemption.add" then
    let eventData := event.eventData
    let userId := eventData.broadcaster_user_id
    match List.lookup userId st.activeGiveaways, List.lookup userId st.userSessions with
    | some giveaway, some _session =>
      if eventData.reward_id ≠ giveaway.rewardId then (st, [])
      else
        let entry := mkEntry eventData
        let giveaway' := { giveaway with entries := giveaway.entries ++ [entry] }
        let st' := { st with activeGiveaways := mapSet userId giveaway' st.activeGiveaways }
        let r := broadcastToUser userId (BroadcastMsg.giveawayEntry entry) st'.userConnections
        ({ st' with userConnections := r.1 }, r.2)
    | _, _ => (st, [])
  else (st, [])

/-- First tenant in `userSessions` whose `subscriptionId` equals the
revoked id: the `for ... of userSessions` loop with `break`
(`server.js` lines 586-594). -/
def findFirstMatch (subId : String) : List (String × UserSession) → Option String
  | [] => none
  | (uid, s) :: rest =>
    if s.subscriptionId = some subId then some uid else findFirstMatch subId rest

/-- `handleSubscriptionRevocation` (`server.js` lines 582-595): scan the
sessions for the revoked subscription id and broadcast a
`subscription_revoked` message with `event.subscription.status` as the
reason to that tenant; nothing else is touched. -/
def handleSubscriptionRevocation (subId status : String) (st : ServerState) :
    ServerState × List (Connection × BroadcastMsg) :=
  match findFirstMatch subId st.userSessions with
  | none => (st, [])
  | some uid =>
    let r := broadcastToUser uid (BroadcastMsg.subscriptionRevoked status) st.userConnections
    ({ st with userConnections := r.1 }, r.2)

/-- A parsed webhook body, by the shape each `switch` arm of the
endpoint reads (`event.challenge`, `event.subscription`/`event.event`,
`event.subscription.id`/`event.subscription.status`). -/
inductive EventBody where
  | verificationBody (challenge : String)
  | notificationBody (ev : NotificationEvent)
  | revocationBody (subId : String) (status : String)
deriving DecidableEq

/-- An inbound POST to `/webhook/eventsub`: the four Twitch headers
(absent headers are `none`) and the raw body. -/
structure WebhookRequest where
  messageId : Option String
  timestamp : Option String
  signature : Option String
  messageType : Option String
  body : String
deriving DecidableEq

/-- An HTTP response: status code and body. -/
structure HttpResponse where
  status : Nat
  body : String
deriving DecidableEq

/-- Outcome of the guard section of the endpoint (`server.js` lines
491-513): ADMIT when the three headers are present, the signature
matches `sha256=` followed by the hex HMAC of messageId + timestamp +
raw body, and the body parses; otherwise the early-return rejection. -/
inductive VerifyResult where
  | ADMIT
  | REJECT (status : Nat) (body : String)
deriving DecidableEq

/-- The guard section of `app.post('/webhook/eventsub')` (`server.js`
lines 491-513).  `hmacHex secret msg` stands for the hex digest of
HMAC-SHA-256 and `parse` for `JSON.parse`; both are environmental
parameters. -/
def verifyWebhookRequest (hmacHex : String → String → String)
    (parse : String → Option EventBody) (secret : String)
    (req : WebhookRequest) : VerifyResult :=
  match req.messageId, req.timestamp, req.signature with
  | some messageId, some timestamp, some signature =>
    if "sha256=" ++ hmacHex secret (messageId ++ timestamp ++ req.body) ≠ signature then
      VerifyResult.REJECT 403 "Invalid signature"
    else
      match parse req.body with
      | none => VerifyResult.REJECT 400 "Invalid JSON"
      | some _ => VerifyResult.ADMIT
  | _, _, _ => VerifyResult.REJECT 400 "Missing required headers"

/-- The whole `/webhook/eventsub` endpoint (`server.js` lines 480-536):
the guard section followed by the `switch` on the message-type header.
A body whose shape does not match its message-type header is outside the
modeled well-formed space and is mapped to the plain 200 "OK" ack. -/
def webhookEndpoint (hmacHex : String → String → String)
    (parse : String → Option EventBody) (secret : String)
    (req : WebhookRequest) (st : ServerState) :
    HttpResponse × ServerState × List (Connection × BroadcastMsg) :=
  match req.messageId, req.timestamp, req.signature with
  | some messageId, some timestamp, some signature =>
    if "sha256=" ++ hmacHex secret (messageId ++ timestamp ++ req.body) ≠ signature then
      (⟨403, "Invalid signature"⟩, st, [])
    else
      match parse req.body with
      | none => (⟨400, "Invalid JSON"⟩, st, [])
      | some event =>
        if req.messageType = some "webhook_callback_verification" then
          match event with
          | EventBody.verificationBody challenge => (⟨200, challenge⟩, st, [])
          | _ => (⟨200, "OK"⟩, st, [])
        else if req.messageType = some "notification" then
          match event with
          | EventBody.notificationBody ev =>
            let r := handleEventNotification ev st
            (⟨200, "OK"⟩, r.1, r.2)
          | _ => (⟨200, "OK"⟩, st, [])
        else if req.messageType = some "revocation" then
          match event with
          | EventBody.revocationBody subId status =>
            let r := handleSubscriptionRevocation subId status st
            (⟨200, "OK"⟩, r.1, r.2)
          | _ => (⟨200, "OK"⟩, st, [])
        else (⟨200, "OK"⟩, st, [])
  | _, _, _ => (⟨400, "Missing required headers"⟩, st, [])

/-- Short-circuit character scan underlying JavaScript string equality:
stop at the first mismatching character. -/
def scanEq : List Char → List Char → Bool
  | [], [] => true
  | a :: as, b :: bs => a = b && scanEq as bs
  | _, _ => false

/-- Number of character comparisons the short-circuit scan performs:
one per agreeing position, stopping at the first mismatch or at the end
of either list. -/
def scanSteps : List Char → List Char → Nat
  | a :: as, b :: bs => 1 + (if a = b then scanSteps as bs else 0)
  | _, _ => 0

/-- JavaScript `===` on two strings, as the short-circuit scan used by
the signature comparison at `server.js` line 502. -/
def jsStringEq (a b : String) : Bool :=
  scanEq a.data b.data

/-- The stats payload of `GET /api/giveaway/:userId/stats`
(`server.js` lines 609-615). -/
structure StatsResponse where
  isActive : Bool
  totalEntries : Nat
  uniqueUsers : Nat
  totalPointsSpent : Nat
  entries : List Entry
deriving DecidableEq

/-- `GET /api/giveaway/:userId/stats` (`server.js` lines 598-616):
404 (`none`) when no giveaway exists; otherwise entry count, the size of
`new Set(entries.map(e => e.username))` (distinct usernames), the
`reduce` sum of the entry costs, and `entries.slice(-20)`. -/
def giveawayStats (userId : String) (st : ServerState) : Option StatsResponse :=
  match List.lookup userId st.activeGiveaways with
  | none => none
  | some giveaway =>
    some
      { isActive := giveaway.isActive
        totalEntries := giveaway.entries.length
        uniqueUsers := (giveaway.entries.map (·.username)).dedup.length
        totalPointsSpent := giveaway.entries.foldl (fun sum e => sum + e.reward_cost) 0
        entries := giveaway.entries.drop (giveaway.entries.length - 20) }

/-! ### Concrete inputs used by witnesses and counterexamples -/

/-- A toy stand-in for the hex HMAC digest, used only to instantiate the
environmental `hmacHex` parameter in witnesses. -/
def hmacHex₀ (secret msg : String) : String := secret ++ ":" ++ msg

/-- A toy `JSON.parse` that parses every body as a verification
challenge carrying the raw body. -/
def parse₀ (s : String) : Option EventBody := some (EventBody.verificationBody s)

/-- A toy `JSON.parse` that fails on every body. -/
def parseFail (_ : String) : Option EventBody := none

/-- A provisioned session for tenant `u1` with reward `r1` and
subscription `sub-1`. -/
def sess₁ : UserSession := ⟨"at1", "rt1", "StreamerOne", some "r1", some "sub-1"⟩

/-- A provisioned session for tenant `u2` with reward `r2` and
subscription `sub-2`. -/
def sess₂ : UserSession := ⟨"at2", "rt2", "StreamerTwo", some "r2", some "sub-2"⟩

/-- A redemption-created notification for tenant `u1`, reward `r1`,
participant alice, cost 500. -/
def evAdd : NotificationEvent :=
  ⟨"channel.channel_points_custom_reward_redemption.add",
   ⟨"u1", "alice", "A1", "red-1", "r1", 500, "t1"⟩⟩

/-- A redemption-updated notification for the same redemption. -/
def evUpd : NotificationEvent :=
  ⟨"channel.channel_points_custom_reward_redemption.update",
   ⟨"u1", "alice", "A1", "red-1", "r1", 500, "t2"⟩⟩

/-- Tenant `u1` with a session and an INACTIVE campaign for reward `r1`. -/
def stInactive : ServerState :=
  ⟨[("u1", sess₁)], [], [("u1", ⟨false, [], "r1"⟩)]⟩

/-- Tenant `u1` with a session, an active empty campaign for `r1`, and
one live connection. -/
def stWithConn : ServerState :=
  ⟨[("u1", sess₁)], [("u1", [⟨1, true⟩])], [("u1", ⟨true, [], "r1"⟩)]⟩

/-- Campaign state of tenant `u1` holding the single alice entry. -/
def gAlice : Giveaway := ⟨true, [⟨"alice", "A1", "red-1", "r1", 500, "t1"⟩], "r1"⟩

/-- Tenant `u1` after the alice entry was accepted. -/
def stAlice : ServerState := ⟨[("u1", sess₁)], [], [("u1", gAlice)]⟩

/-- A campaign whose two entries share the participant id `A1` under two
different display names. -/
def stTwoNames : ServerState :=
  ⟨[("u1", sess₁)], [],
   [("u1", ⟨true,
     [⟨"alice", "A1", "red-1", "r1", 500, "t1"⟩,
      ⟨"alicia", "A1", "red-2", "r1", 500, "t2"⟩], "r1"⟩)]⟩

/-- A dead connection (its write fails). -/
def connDead : Connection := ⟨1, false⟩

/-- A live connection. -/
def connLive : Connection := ⟨2, true⟩

/-- A registry where tenant `u1` has one dead and one live connection. -/
def conns₆ : List (String × List Connection) := [("u1", [connDead, connLive])]

/-- Two tenants, each with a session and one live connection; `u1` holds
subscription `sub-1`. -/
def stRevoke : ServerState :=
  ⟨[("u1", sess₁), ("u2", sess₂)],
   [("u1", [connLive]), ("u2", [⟨3, true⟩])],
   []⟩

/-- An active campaign for `u1` but no session for `u1`. -/
def stNoSess : ServerState := ⟨[], [], [("u1", ⟨true, [], "r1"⟩)]⟩

/-! ### Helper lemmas -/

/-- Looking up a key right after setting it yields the new value. -/
theorem lookup_mapSet_self {β : Type} (k : String) (v : β) :
    ∀ l : List (String × β), List.lookup k (mapSet k v l) = some v := by
  intro l
  induction l with
  | nil => simp [mapSet, List.lookup]
  | cons p rest ih =>
    obtain ⟨k', v'⟩ := p
    by_cases h : k' = k
    · subst h
      simp [mapSet, List.lookup]
    · have hbeq : (k == k') = false := by
        simp [beq_eq_false_iff_ne]
        exact fun hk => h hk.symm
      simp [mapSet, h, List.lookup, hbeq, ih]

/-- Every delivery of a broadcast goes to an alive connection registered
to the broadcast's tenant, and carries the broadcast's message. -/
theorem broadcast_delivered_sound (userId : String) (msg : BroadcastMsg)
    (conns : List (String × List Connection)) (c : Connection) (m : BroadcastMsg)
    (hmem : (c, m) ∈ (broadcastToUser userId msg conns).2) :
    c.alive = true ∧ m = msg ∧ c ∈ (List.lookup userId conns).getD [] := by
  unfold broadcastToUser at hmem
  cases hlk : List.lookup userId conns with
  | none => rw [hlk] at hmem; simp at hmem
  | some cs =>
    rw [hlk] at hmem
    by_cases hemp : cs.isEmpty
    · simp [hemp] at hmem
    · have hmem' : (c, m) ∈ (cs.filter (·.alive)).map (fun x => (x, msg)) := by
        simpa [hemp] using hmem
      rcases List.mem_map.mp hmem' with ⟨x, hx, hpair⟩
      injection hpair with h1 h2
      subst h1; subst h2
      rcases List.mem_filter.mp hx with ⟨hcs, halive⟩
      exact ⟨by simpa using halive, rfl, by simpa [hlk] using hcs⟩

/-- Every alive registered connection of the tenant receives the
broadcast. -/
theorem broadcast_delivered_complete (userId : String) (msg : BroadcastMsg)
    (conns : List (String × List Connection)) (cs : List Connection) (c : Connection)
    (hlk : List.lookup userId conns = some cs) (hc : c ∈ cs) (halive : c.alive = true) :
    (c, msg) ∈ (broadcastToUser userId msg conns).2 := by
  have hemp : cs.isEmpty = false := by
    cases cs with
    | nil => simp at hc
    | cons hd tl => rfl
  have hgoal : (c, msg) ∈ (cs.filter (·.alive)).map (fun x => (x, msg)) :=
    List.mem_map.mpr ⟨c, List.mem_filter.mpr ⟨hc, by simpa using halive⟩, rfl⟩
  simpa [broadcastToUser, hlk, hemp] using hgoal

/-- After a broadcast to a tenant with registered connections, the
tenant's registry entry is exactly the alive connections. -/
theorem broadcast_registry (userId : String) (msg : BroadcastMsg)
    (conns : List (String × List Connection)) (cs : List Connection)
    (hlk : List.lookup userId conns = some cs) (hne : cs ≠ []) :
    List.lookup userId (broadcastToUser userId msg conns).1 =
      some (cs.filter (·.alive)) := by
  unfold broadcastToUser
  rw [hlk]
  have hemp : ¬cs.isEmpty = true := by simpa [List.isEmpty_iff] using hne
  simp [hemp]
  exact lookup_mapSet_self userId (cs.filter (·.alive)) conns

/-- The short-circuit scan decides list equality. -/
theorem scanEq_eq_true_iff : ∀ as bs : List Char, scanEq as bs = true ↔ as = bs := by
  intro as
  induction as with
  | nil => intro bs; cases bs <;> simp [scanEq]
  | cons a as ih =>
    intro bs
    cases bs with
    | nil => simp [scanEq]
    | cons b bs => simp [scanEq, ih bs]

/-- `jsStringEq` decides string equality. -/
theorem jsStringEq_eq_true_iff (a b : String) : jsStringEq a b = true ↔ a = b := by
  unfold jsStringEq
  simp [scanEq_eq_true_iff]
  exact ⟨fun h => by cases a; cases b; simp_all, fun h => by rw [h]⟩

/-- Folding `+ cost` over a list starting from `a` is `a` plus the sum
of the costs. -/
theorem foldl_cost_eq_sum (l : List Entry) :
    ∀ a : Nat, l.foldl (fun sum e => sum + e.reward_cost) a
      = a + (l.map (·.reward_cost)).sum := by
  induction l with
  | nil => intro a; simp
  | cons e l ih =>
    intro a
    simp [List.foldl_cons, ih, Nat.add_assoc]

/-- If one session matches the revoked id and every matching session
belongs to tenant `uid`, the scan finds `uid`. -/
theorem findFirstMatch_eq_of_unique (subId : String) (uid : String) (sess : UserSession)
    (l : List (String × UserSession))
    (hmem : (uid, sess) ∈ l) (hsub : sess.subscriptionId = some subId)
    (huniq : ∀ p ∈ l, p.2.subscriptionId = some subId → p.1 = uid) :
    findFirstMatch subId l = some uid := by
  induction l with
  | nil => simp at hmem
  | cons p rest ih =>
    obtain ⟨k, s⟩ := p
    by_cases h : s.subscriptionId = some subId
    · have : k = uid := huniq (k, s) (List.mem_cons_self _ _) h
      simp [findFirstMatch, h, this]
    · have hmem' : (uid, sess) ∈ rest := by
        rcases List.mem_cons.mp hmem with heq | hr
        · exfalso; apply h; injection heq with h1 h2; exact h2 ▸ hsub
        · exact hr
      have huniq' : ∀ p ∈ rest, p.2.subscriptionId = some subId → p.1 = uid :=
        fun p hp => huniq p (List.mem_cons_of_mem _ hp)
      simp [findFirstMatch, h, ih hmem' huniq']

/-- A redemption-add notification with matching reward appends the entry
and broadcasts it; the whole effect, spelled out. -/
theorem handleEvent_append (ev : NotificationEvent) (st : ServerState)
    (g : Giveaway) (sess : UserSession)
    (hty : ev.subscriptionType = "channel.channel_points_custom_reward_redemption.add")
    (hg : List.lookup ev.eventData.broadcaster_user_id st.activeGiveaways = some g)
    (hs : List.lookup ev.eventData.broadcaster_user_id st.userSessions = some sess)
    (hr : ev.eventData.reward_id = g.rewardId) :
    handleEventNotification ev st =
      ({ st with
          activeGiveaways := mapSet ev.eventData.broadcaster_user_id
            { g with entries := g.entries ++ [mkEntry ev.eventData] } st.activeGiveaways
          userConnections := (broadcastToUser ev.eventData.broadcaster_user_id
            (BroadcastMsg.giveawayEntry (mkEntry ev.eventData)) st.userConnections).1 },
       (broadcastToUser ev.eventData.broadcaster_user_id
          (BroadcastMsg.giveawayEntry (mkEntry ev.eventData)) st.userConnections).2) := by
  unfold handleEventNotification
  rw [if_pos hty]
  dsimp only
  rw [hg, hs]
  dsimp only
  rw [if_neg (by simp [hr])]

/-- A redemption-add notification whose reward id differs from the
campaign's reward id is dropped. -/
theorem handleEvent_drop_reward (ev : NotificationEvent) (st : ServerState)
    (g : Giveaway) (sess : UserSession)
    (hty : ev.subscriptionType = "channel.channel_points_custom_reward_redemption.add")
    (hg : List.lookup ev.eventData.broadcaster_user_id st.activeGiveaways = some g)
    (hs : List.lookup ev.eventData.broadcaster_user_id st.userSessions = some sess)
    (hr : ev.eventData.reward_id ≠ g.rewardId) :
    handleEventNotification ev st = (st, []) := by
  unfold handleEventNotification
  rw [if_pos hty]
  dsimp only
  rw [hg, hs]
  dsimp only
  rw [if_pos hr]

/-- A redemption-add notification with no campaign for the tenant is
dropped. -/
theorem handleEvent_drop_no_giveaway (ev : NotificationEvent) (st : ServerState)
    (hg : List.lookup ev.eventData.broadcaster_user_id st.activeGiveaways = none) :
    handleEventNotification ev st = (st, []) := by
  unfold handleEventNotification
  by_cases hty : ev.subscriptionType = "channel.channel_points_custom_reward_redemption.add"
  · rw [if_pos hty]
    dsimp only
    rw [hg]
  · rw [if_neg hty]

/-- A redemption-add notification with no session for the tenant is
dropped. -/
theorem handleEvent_drop_no_session (ev : NotificationEvent) (st : ServerState)
    (hs : List.lookup ev.eventData.broadcaster_user_id st.userSessions = none) :
    handleEventNotification ev st = (st, []) := by
  unfold handleEventNotification
  by_cases hty : ev.subscriptionType = "channel.channel_points_custom_reward_redemption.add"
  · rw [if_pos hty]
    dsimp only
    rw [hs]
    cases List.lookup ev.eventData.broadcaster_user_id st.activeGiveaways <;> rfl
  · rw [if_neg hty]

/-- Any notification whose subscription type is not the redemption-add
type is ignored. -/
theorem handleEvent_drop_other_type (ev : NotificationEvent) (st : ServerState)
    (hty : ev.subscriptionType ≠ "channel.channel_points_custom_reward_redemption.add") :
    handleEventNotification ev st = (st, []) := by
  unfold handleEventNotification
  rw [if_neg hty]

/-! ### Claims -/

/-- Claim C1, counterexample: tenant `u1` has a campaign with
`isActive = false` and reward `r1`, yet a redemption-created
notification for reward `r1` appends an entry anyway — the handler never
reads the active flag, so "appended iff ... the Campaign's active flag
is true ..." is false at this input. -/
theorem C1_counterexample :
    (List.lookup "u1" stInactive.activeGiveaways).map Giveaway.isActive = some false
  ∧ (List.lookup "u1" stInactive.activeGiveaways).map Giveaway.entries = some []
  ∧ (List.lookup "u1" (handleEventNotification evAdd stInactive).1.activeGiveaways).map
      Giveaway.entries = some [mkEntry evAdd.eventData] := by
  decide

/-- Claim C1 (amended): for a redemption-created notification for
tenant T with reward R, an Entry is appended to T's campaign iff a
campaign exists for T, a tenant session exists for T, and the campaign's
reward id equals R — the active flag is not consulted; in every other
case the state is unchanged and no broadcast is sent. -/
theorem C1_theorem (ev : NotificationEvent) (st : ServerState)
    (hty : ev.subscriptionType = "channel.channel_points_custom_reward_redemption.add") :
    (∀ g sess,
      List.lookup ev.eventData.broadcaster_user_id st.activeGiveaways = some g →
      List.lookup ev.eventData.broadcaster_user_id st.userSessions = some sess →
      ev.eventData.reward_id = g.rewardId →
      List.lookup ev.eventData.broadcaster_user_id
          (handleEventNotification ev st).1.activeGiveaways
        = some { g with entries := g.entries ++ [mkEntry ev.eventData] })
  ∧ ((List.lookup ev.eventData.broadcaster_user_id st.activeGiveaways = none
      ∨ List.lookup ev.eventData.broadcaster_user_id st.userSessions = none
      ∨ (∀ g, List.lookup ev.eventData.broadcaster_user_id st.activeGiveaways = some g →
          ev.eventData.reward_id ≠ g.rewardId)) →
      handleEventNotification ev st = (st, [])) := by
  constructor
  · intro g sess hg hs hr
    rw [handleEvent_append ev st g sess hty hg hs hr]
    exact lookup_mapSet_self _ _ _
  · intro h
    rcases h with hg | hs | hmis
    · exact handleEvent_drop_no_giveaway ev st hg
    · exact handleEvent_drop_no_session ev st hs
    · cases hg : List.lookup ev.eventData.broadcaster_user_id st.activeGiveaways with
      | none => exact handleEvent_drop_no_giveaway ev st hg
      | some g =>
        cases hs : List.lookup ev.eventData.broadcaster_user_id st.userSessions with
        | none => exact handleEvent_drop_no_session ev st hs
        | some sess => exact handleEvent_drop_reward ev st g sess hty hg hs (hmis g hg)

/-- Claim C1, witness: the amended theorem applied to tenant `u1` with
an active campaign, a session, and a matching reward. -/
theorem C1_witness :
    List.lookup "u1" (handleEventNotification evAdd stWithConn).1.activeGiveaways
      = some { isActive := true, entries := [mkEntry evAdd.eventData], rewardId := "r1" } := by
  have h := (C1_theorem evAdd stWithConn rfl).1 ⟨true, [], "r1"⟩ sess₁ (by decide) (by decide) rfl
  simpa using h

/-- Claim C4, counterexample: tenant `u1` has an open live connection,
yet a redemption-updated notification delivers nothing to it (and leaves
all state unchanged) — no `redemption-status-changed` broadcast exists in
the code, so the claim's broadcast clause is false at this input. -/
theorem C4_counterexample :
    handleEventNotification evUpd stWithConn = (stWithConn, [])
  ∧ List.lookup "u1" stWithConn.userConnections = some [⟨1, true⟩] := by
  decide

/-- Claim C4 (amended): a redemption-updated notification (or any other
non-redemption-add subscription type) leaves every stored entry and all
other state unchanged and emits no broadcast at all: the handler acts
only on the redemption-add subscription type. -/
theorem C4_theorem (ev : NotificationEvent) (st : ServerState)
    (hty : ev.subscriptionType ≠ "channel.channel_points_custom_reward_redemption.add") :
    handleEventNotification ev st = (st, []) :=
  handleEvent_drop_other_type ev st hty

/-- Claim C4, witness: the amended theorem applied to a
redemption-updated notification for tenant `u1`. -/
theorem C4_witness : handleEventNotification evUpd stWithConn = (stWithConn, []) :=
  C4_theorem evUpd stWithConn (by decide)

/-- Claim C8: two redemption-created notifications carrying the same
redemption id (identical events) both append: the campaign ends with two
copies of the entry — there is no dedup check on redemption id. -/
theorem C8_theorem (ev : NotificationEvent) (st : ServerState) (g : Giveaway)
    (sess : UserSession)
    (hty : ev.subscriptionType = "channel.channel_points_custom_reward_redemption.add")
    (hg : List.lookup ev.eventData.broadcaster_user_id st.activeGiveaways = some g)
    (hs : List.lookup ev.eventData.broadcaster_user_id st.userSessions = some sess)
    (hr : ev.eventData.reward_id = g.rewardId) :
    List.lookup ev.eventData.broadcaster_user_id
        (handleEventNotification ev (handleEventNotification ev st).1).1.activeGiveaways
      = some { g with entries := g.entries ++ [mkEntry ev.eventData, mkEntry ev.eventData] } := by
  have h1 := handleEvent_append ev st g sess hty hg hs hr
  have hg1 : List.lookup ev.eventData.broadcaster_user_id
      (handleEventNotification ev st).1.activeGiveaways
      = some { g with entries := g.entries ++ [mkEntry ev.eventData] } := by
    rw [h1]; exact lookup_mapSet_self _ _ _
  have hs1 : List.lookup ev.eventData.broadcaster_user_id
      (handleEventNotification ev st).1.userSessions = some sess := by
    rw [h1]; exact hs
  have h2 := handleEvent_append ev (handleEventNotification ev st).1
      { g with entries := g.entries ++ [mkEntry ev.eventData] } sess hty hg1 hs1 hr
  rw [h2]
  rw [lookup_mapSet_self]
  simp [List.append_assoc]

/-- Claim C8, witness: the theorem applied to the alice redemption
delivered twice to tenant `u1`'s active empty campaign. -/
theorem C8_witness :
    List.lookup "u1"
        (handleEventNotification evAdd (handleEventNotification evAdd stWithConn).1).1.activeGiveaways
      = some { isActive := true, entries := [mkEntry evAdd.eventData, mkEntry evAdd.eventData],
               rewardId := "r1" } := by
  have h := C8_theorem evAdd stWithConn ⟨true, [], "r1"⟩ sess₁ rfl (by decide) (by decide) rfl
  simpa using h

/-- Claim C10: a redemption-created notification is dropped whenever no
tenant session exists, even if a matching campaign exists; and an entry
is appended only when both a campaign and a session exist for the
tenant. -/
theorem C10_theorem (ev : NotificationEvent) (st : ServerState)
    (_hty : ev.subscriptionType = "channel.channel_points_custom_reward_redemption.add") :
    (List.lookup ev.eventData.broadcaster_user_id st.userSessions = none →
      handleEventNotification ev st = (st, []))
  ∧ ((handleEventNotification ev st).1 ≠ st →
      (∃ g, List.lookup ev.eventData.broadcaster_user_id st.activeGiveaways = some g)
      ∧ ∃ sess, List.lookup ev.eventData.broadcaster_user_id st.userSessions = some sess) := by
  constructor
  · exact fun hs => handleEvent_drop_no_session ev st hs
  · intro hch
    cases hg : List.lookup ev.eventData.broadcaster_user_id st.activeGiveaways with
    | none => exact absurd (by rw [handleEvent_drop_no_giveaway ev st hg]) hch
    | some g =>
      cases hs : List.lookup ev.eventData.broadcaster_user_id st.userSessions with
      | none => exact absurd (by rw [handleEvent_drop_no_session ev st hs]) hch
      | some sess => exact ⟨⟨g, rfl⟩, sess, rfl⟩

/-- Claim C10, witness: a matching active campaign for `u1` but no
session — the notification is dropped. -/
theorem C10_witness : handleEventNotification evAdd stNoSess = (stNoSess, []) :=
  (C10_theorem evAdd stNoSess rfl).1 (by decide)

/-- Claim C2: the guard returns ADMIT when the claimed signature is
`sha256=` followed by the hex HMAC of message id + timestamp + raw body
under the shared secret (and the body parses); it returns the 403
rejection, never raising, for any claimed signature other than that of
the presented message — which covers mutating any byte of the payload,
message id, timestamp or signature, given that the mutated HMAC digest
differs; it rejects with 400 when any of the three headers is absent or
when the payload cannot be parsed. -/
theorem C2_theorem (hmacHex : String → String → String)
    (parse : String → Option EventBody) (secret : String) :
    (∀ mid ts mt body e, parse body = some e →
      verifyWebhookRequest hmacHex parse secret
          ⟨some mid, some ts, some ("sha256=" ++ hmacHex secret (mid ++ ts ++ body)), mt, body⟩
        = VerifyResult.ADMIT)
  ∧ (∀ mid ts sig mt body, sig ≠ "sha256=" ++ hmacHex secret (mid ++ ts ++ body) →
      verifyWebhookRequest hmacHex parse secret ⟨some mid, some ts, some sig, mt, body⟩
        = VerifyResult.REJECT 403 "Invalid signature")
  ∧ (∀ req : WebhookRequest,
      req.messageId = none ∨ req.timestamp = none ∨ req.signature = none →
      verifyWebhookRequest hmacHex parse secret req
        = VerifyResult.REJECT 400 "Missing required headers")
  ∧ (∀ mid ts mt body, parse body = none →
      verifyWebhookRequest hmacHex parse secret
          ⟨some mid, some ts, some ("sha256=" ++ hmacHex secret (mid ++ ts ++ body)), mt, body⟩
        = VerifyResult.REJECT 400 "Invalid JSON") := by
  refine ⟨?_, ?_, ?_, ?_⟩
  · intro mid ts mt body e hparse
    simp only [verifyWebhookRequest]
    rw [if_neg (fun h => h rfl)]
    rw [hparse]
  · intro mid ts sig mt body hsig
    simp only [verifyWebhookRequest]
    rw [if_pos (fun h => hsig h.symm)]
  · intro req h
    obtain ⟨mi, tss, sg, mt, bd⟩ := req
    cases mi <;> cases tss <;> cases sg <;>
      first
        | rfl
        | (exfalso; simp at h)
  · intro mid ts mt body hparse
    simp only [verifyWebhookRequest]
    rw [if_neg (fun h => h rfl)]
    rw [hparse]

/-- Claim C2, witness: a concrete toy HMAC and parser — a correctly
signed request is admitted; a wrong signature is 403-rejected; a missing
header and an unparseable body are 400-rejected. -/
theorem C2_witness :
    (verifyWebhookRequest hmacHex₀ parse₀ "sec"
        ⟨some "m", some "t", some ("sha256=" ++ hmacHex₀ "sec" ("m" ++ "t" ++ "b")),
         some "notification", "b"⟩
      = VerifyResult.ADMIT)
  ∧ (verifyWebhookRequest hmacHex₀ parse₀ "sec"
        ⟨some "m", some "t", some "bogus", some "notification", "b"⟩
      = VerifyResult.REJECT 403 "Invalid signature")
  ∧ (verifyWebhookRequest hmacHex₀ parse₀ "sec"
        ⟨none, some "t", some "s", some "notification", "b"⟩
      = VerifyResult.REJECT 400 "Missing required headers")
  ∧ (verifyWebhookRequest hmacHex₀ parseFail "sec"
        ⟨some "m", some "t", some ("sha256=" ++ hmacHex₀ "sec" ("m" ++ "t" ++ "b")),
         some "notification", "b"⟩
      = VerifyResult.REJECT 400 "Invalid JSON") := by
  refine ⟨?_, ?_, ?_, ?_⟩
  · exact (C2_theorem hmacHex₀ parse₀ "sec").1 "m" "t" (some "notification") "b"
      (EventBody.verificationBody "b") rfl
  · exact (C2_theorem hmacHex₀ parse₀ "sec").2.1 "m" "t" "bogus" (some "notification") "b"
      (by decide)
  · exact (C2_theorem hmacHex₀ parse₀ "sec").2.2.1
      ⟨none, some "t", some "s", some "notification", "b"⟩ (Or.inl rfl)
  · exact (C2_theorem hmacHex₀ parseFail "sec").2.2.2 "m" "t" (some "notification") "b" rfl

/-- Claim C3, counterexample: under the short-circuit cost model of the
plain `!==` string comparison the code uses, two rejected signatures of
the same length cost a different number of character comparisons — 1
when the first byte mismatches, 4 when the fourth does — so the
comparison's running time does depend on the position of the first
mismatching byte. -/
theorem C3_counterexample :
    jsStringEq "aaaa" "baaa" = false
  ∧ jsStringEq "aaaa" "aaab" = false
  ∧ scanSteps "aaaa".data "baaa".data = 1
  ∧ scanSteps "aaaa".data "aaab".data = 4
  ∧ scanSteps "aaaa".data "baaa".data ≠ scanSteps "aaaa".data "aaab".data := by
  decide

/-- Claim C3 (amended): the verifier compares the computed digest to the
claimed signature with plain JavaScript string comparison, a
short-circuit comparison whose cost is the position of the first
mismatching character plus one — not a timing-safe comparison; the
verifier's 403 rejection coincides exactly with that comparison
reporting the strings unequal. -/
theorem C3_theorem (pre suf₁ suf₂ : List Char) (c₁ c₂ : Char) (hne : c₁ ≠ c₂) :
    (scanSteps (pre ++ c₁ :: suf₁) (pre ++ c₂ :: suf₂) = pre.length + 1)
  ∧ (∀ (hmacHex : String → String → String) (parse : String → Option EventBody)
       (secret mid ts sig : String) (mt : Option String) (body : String),
      verifyWebhookRequest hmacHex parse secret ⟨some mid, some ts, some sig, mt, body⟩
          = VerifyResult.REJECT 403 "Invalid signature"
        ↔ jsStringEq ("sha256=" ++ hmacHex secret (mid ++ ts ++ body)) sig = false) := by
  constructor
  · induction pre with
    | nil => simp [scanSteps, hne]
    | cons a pre ih =>
      simp [scanSteps, ih]
      omega
  · intro hmacHex parse secret mid ts sig mt body
    by_cases h : "sha256=" ++ hmacHex secret (mid ++ ts ++ body) = sig
    · have hjs : jsStringEq ("sha256=" ++ hmacHex secret (mid ++ ts ++ body)) sig = true :=
        (jsStringEq_eq_true_iff _ _).mpr h
      simp only [verifyWebhookRequest]
      rw [if_neg (fun hne' => hne' h)]
      constructor
      · intro hres
        cases hp : parse body with
        | none => rw [hp] at hres; exact absurd hres (by simp)
        | some e => rw [hp] at hres; exact absurd hres (by simp)
      · intro hfalse
        rw [hjs] at hfalse
        exact absurd hfalse (by simp)
    · have hjs : jsStringEq ("sha256=" ++ hmacHex secret (mid ++ ts ++ body)) sig = false := by
        cases hb : jsStringEq ("sha256=" ++ hmacHex secret (mid ++ ts ++ body)) sig with
        | false => rfl
        | true => exact absurd ((jsStringEq_eq_true_iff _ _).mp hb) h
      simp only [verifyWebhookRequest]
      rw [if_pos h]
      simp [hjs]

/-- Claim C3, witness: the amended theorem at a concrete one-character
prefix and a concrete rejected request. -/
theorem C3_witness :
    (scanSteps (['a'] ++ 'b' :: []) (['a'] ++ 'c' :: []) = 2)
  ∧ (verifyWebhookRequest hmacHex₀ parse₀ "sec"
        ⟨some "m", some "t", some "x", some "notification", "b"⟩
        = VerifyResult.REJECT 403 "Invalid signature"
      ↔ jsStringEq ("sha256=" ++ hmacHex₀ "sec" ("m" ++ "t" ++ "b")) "x" = false) := by
  have h := C3_theorem ['a'] [] [] 'b' 'c' (by decide)
  exact ⟨by simpa using h.1, h.2 hmacHex₀ parse₀ "sec" "m" "t" "x" (some "notification") "b"⟩

/-- Claim C5: an admitted `webhook_callback_verification` message whose
body carries challenge string c is answered with HTTP 200 and body
exactly c, with the session registry, campaign state and connection
registry all unchanged and no broadcast sent. -/
theorem C5_theorem (hmacHex : String → String → String)
    (parse : String → Option EventBody) (secret mid ts body challenge : String)
    (st : ServerState)
    (hparse : parse body = some (EventBody.verificationBody challenge)) :
    webhookEndpoint hmacHex parse secret
        ⟨some mid, some ts, some ("sha256=" ++ hmacHex secret (mid ++ ts ++ body)),
         some "webhook_callback_verification", body⟩ st
      = (⟨200, challenge⟩, st, []) := by
  simp only [webhookEndpoint]
  rw [if_neg (fun h => h rfl)]
  rw [hparse]
  rfl

/-- Claim C5, witness: the scenario challenge `xyz123` — the response is
200 with body exactly `xyz123` and the state is untouched. -/
theorem C5_witness :
    webhookEndpoint hmacHex₀ parse₀ "sec"
        ⟨some "m", some "t", some ("sha256=" ++ hmacHex₀ "sec" ("m" ++ "t" ++ "xyz123")),
         some "webhook_callback_verification", "xyz123"⟩ stInactive
      = (⟨200, "xyz123"⟩, stInactive, []) :=
  C5_theorem hmacHex₀ parse₀ "sec" "m" "t" "xyz123" "xyz123" stInactive rfl

/-- Claim C6: a connection whose write fails during a broadcast fanout
pass is removed from the tenant's registry entry within that same pass;
from then on it is never among the deliveries of any broadcast (only
alive connections are written to), and a heartbeat tick delivers nothing
to it. -/
theorem C6_theorem (userId : String) (msg : BroadcastMsg)
    (conns : List (String × List Connection)) (cs : List Connection) (c : Connection)
    (hlk : List.lookup userId conns = some cs) (hc : c ∈ cs) (hdead : c.alive = false) :
    (c ∉ (List.lookup userId (broadcastToUser userId msg conns).1).getD [])
  ∧ (∀ (userId' : String) (msg' : BroadcastMsg)
       (conns' : List (String × List Connection)) (m : BroadcastMsg),
      (c, m) ∉ (broadcastToUser userId' msg' conns').2)
  ∧ heartbeatTick c = none := by
  refine ⟨?_, ?_, ?_⟩
  · have hne : cs ≠ [] := by intro h; subst h; simp at hc
    rw [broadcast_registry userId msg conns cs hlk hne]
    simp [List.mem_filter, hdead]
  · intro userId' msg' conns' m hmem
    have hs := broadcast_delivered_sound userId' msg' conns' c m hmem
    rw [hdead] at hs
    exact absurd hs.1 (by simp)
  · simp [heartbeatTick, hdead]

/-- Claim C6, witness: tenant `u1` has one dead and one live connection;
after one broadcast the dead one is out of the registry, receives no
delivery, and gets no heartbeat. -/
theorem C6_witness :
    (connDead ∉ (List.lookup "u1" (broadcastToUser "u1" BroadcastMsg.heartbeat conns₆).1).getD [])
  ∧ ((connDead, BroadcastMsg.heartbeat)
      ∉ (broadcastToUser "u1" BroadcastMsg.heartbeat conns₆).2)
  ∧ heartbeatTick connDead = none := by
  have h := C6_theorem "u1" BroadcastMsg.heartbeat conns₆ [connDead, connLive] connDead
    (by decide) (by decide) rfl
  exact ⟨h.1, h.2.1 "u1" BroadcastMsg.heartbeat conns₆ BroadcastMsg.heartbeat, h.2.2⟩

/-- Claim C7: for a revocation naming subscription id s held (uniquely)
by tenant `uid`, a `subscription_revoked` message carrying the
revocation reason is delivered to every open (alive) connection of that
tenant; every delivery of the pass goes to a connection registered to
that tenant (no other tenant receives anything); and neither the session
registry nor the campaign state is deleted or mutated. -/
theorem C7_theorem (subId status : String) (st : ServerState) (uid : String)
    (sess : UserSession)
    (hmem : (uid, sess) ∈ st.userSessions) (hsub : sess.subscriptionId = some subId)
    (huniq : ∀ p ∈ st.userSessions, p.2.subscriptionId = some subId → p.1 = uid) :
    (∀ c ∈ (List.lookup uid st.userConnections).getD [], c.alive = true →
      (c, BroadcastMsg.subscriptionRevoked status)
        ∈ (handleSubscriptionRevocation subId status st).2)
  ∧ (∀ c m, (c, m) ∈ (handleSubscriptionRevocation subId status st).2 →
      c ∈ (List.lookup uid st.userConnections).getD []
      ∧ m = BroadcastMsg.subscriptionRevoked status)
  ∧ (handleSubscriptionRevocation subId status st).1.userSessions = st.userSessions
  ∧ (handleSubscriptionRevocation subId status st).1.activeGiveaways = st.activeGiveaways := by
  have hfind := findFirstMatch_eq_of_unique subId uid sess st.userSessions hmem hsub huniq
  have hre : handleSubscriptionRevocation subId status st =
      ({ st with userConnections :=
          (broadcastToUser uid (BroadcastMsg.subscriptionRevoked status) st.userConnections).1 },
       (broadcastToUser uid (BroadcastMsg.subscriptionRevoked status) st.userConnections).2) := by
    unfold handleSubscriptionRevocation
    rw [hfind]
  refine ⟨?_, ?_, ?_, ?_⟩
  · intro c hcmem halive
    rw [hre]
    cases hlk : List.lookup uid st.userConnections with
    | none => rw [hlk] at hcmem; simp at hcmem
    | some cs =>
      rw [hlk] at hcmem
      exact broadcast_delivered_complete uid _ st.userConnections cs c hlk
        (by simpa using hcmem) halive
  · intro c m hmem2
    rw [hre] at hmem2
    have hs := broadcast_delivered_sound uid _ st.userConnections c m (by simpa using hmem2)
    exact ⟨hs.2.2, hs.2.1⟩
  · rw [hre]
  · rw [hre]

/-- Claim C7, witness: subscription `sub-1` is held by `u1`; its live
connection receives the revocation event and sessions and campaigns are
untouched. -/
theorem C7_witness :
    ((connLive, BroadcastMsg.subscriptionRevoked "authorization_revoked")
      ∈ (handleSubscriptionRevocation "sub-1" "authorization_revoked" stRevoke).2)
  ∧ (handleSubscriptionRevocation "sub-1" "authorization_revoked" stRevoke).1.userSessions
      = stRevoke.userSessions
  ∧ (handleSubscriptionRevocation "sub-1" "authorization_revoked" stRevoke).1.activeGiveaways
      = stRevoke.activeGiveaways := by
  have h := C7_theorem "sub-1" "authorization_revoked" stRevoke "u1" sess₁
    (by decide) (by decide) (by decide)
  exact ⟨h.1 connLive (by decide) rfl, h.2.2.1, h.2.2.2⟩

/-- Claim C9, counterexample: two entries by the same participant id
`A1` under two display names — the number of distinct participants among
the entries is 1, but the stats read reports 2: the endpoint counts
distinct usernames (display names), not distinct participants. -/
theorem C9_counterexample :
    ((List.lookup "u1" stTwoNames.activeGiveaways).map
      (fun g => (g.entries.map (·.user_id)).dedup.length)) = some 1
  ∧ (giveawayStats "u1" stTwoNames).map (·.uniqueUsers) = some 2 := by
  decide

/-- Claim C9 (amended): for every tenant with a campaign, the stats read
returns totalEntries equal to the number of entries, totalPointsSpent
equal to the sum of the entries' reward costs, and a unique-participant
figure equal to the number of distinct USERNAMES (display names) among
the entries — the set is keyed on the username field, not on the
participant id. -/
theorem C9_theorem (userId : String) (st : ServerState) (g : Giveaway)
    (hg : List.lookup userId st.activeGiveaways = some g) :
    (giveawayStats userId st).map
        (fun r => (r.totalEntries, r.totalPointsSpent, r.uniqueUsers))
      = some (g.entries.length,
              (g.entries.map (·.reward_cost)).sum,
              (g.entries.map (·.username)).toFinset.card) := by
  unfold giveawayStats
  rw [hg]
  simp [foldl_cost_eq_sum, List.card_toFinset]

/-- Claim C9, witness: the scenario — one accepted alice entry of cost
500 on a previously empty active campaign gives totalEntries = 1,
totalPointsSpent = 500 and one distinct username. -/
theorem C9_witness :
    (giveawayStats "u1" stAlice).map
        (fun r => (r.totalEntries, r.totalPointsSpent, r.uniqueUsers))
      = some (1, 500, 1) := by
  have h := C9_theorem "u1" stAlice gAlice (by decide)
  rw [h]
  decide

end Server
